import Mathlib

/-!
Verification of the account-ledger chaincode (`rc.go`).

Shallow embedding of the Go source:

* `Wallet` / `TransferInfo` mirror the Go structs (uint64 balances are
  modelled as `Nat`, with an explicit `% 2^64` wherever the Go code may
  overflow a uint64 addition; the guarded uint64 subtraction is exact).
* The ledger world state (the shim stub's key/value store restricted to
  decodable wallet records) is an association list `List (String × Wallet)`;
  a key absent from the list models `GetState` returning nil bytes.
* `PutState` failures are modelled by a set of keys (`failKeys`) on which a
  write is rejected; `GetTxID` is the stub's `txid` field.  Each operation
  returns its `peer.Response`, the resulting world state and the ordered
  trace of the writes it committed (key, value written, transaction id).
* `strconv.ParseUint(s, 10, 32)`, `strconv.Atoi` and `strconv.Itoa` are
  embedded by `parseUint32`, `atoi` and `itoa`, including Go's behaviour of
  returning 0 on a syntax error and a clamped extreme value on range error
  (the Go code discards both error results).
* For the history query, a stored historical value is
  `Option (Option Wallet)`: `none` is a nil/tombstoned value, `some none`
  is a present value on which `json.Unmarshal` fails leaving its target
  unchanged, `some (some w)` decodes to `w`.
-/

/-- Mirrors Go struct `TransferInfo` (fields FromOrTo, Value, Date, TxType). -/
structure TransferInfo where
  fromOrTo : String
  value : Nat
  date : String
  txType : String
deriving Repr, DecidableEq

/-- Mirrors Go struct `Wallet` (fields Value, Transfer). -/
structure Wallet where
  value : Nat
  transfer : TransferInfo
deriving Repr, DecidableEq

/-- The Go zero value `Wallet{}`: balance 0 and a zero `TransferInfo`. -/
def Wallet.empty : Wallet :=
  { value := 0, transfer := { fromOrTo := "", value := 0, date := "", txType := "" } }

/-- A `peer.Response`: `shim.Success` with a payload, or `shim.Error` with a message. -/
inductive Resp (α : Type) where
  | success (a : α)
  | error (msg : String)
deriving Repr, DecidableEq

/-- World state: decodable wallet records keyed by account identifier. -/
abbrev LedgerState := List (String × Wallet)

/-- `stub.GetState`: the first binding of the key, `none` when the key is absent. -/
def getVal : LedgerState → String → Option Wallet
  | [], _ => none
  | (k', w) :: rest, k => if k = k' then some w else getVal rest k

/-- `stub.PutState`: replace the first binding of the key, or append a new one. -/
def putVal : LedgerState → String → Wallet → LedgerState
  | [], k, w => [(k, w)]
  | (k', w') :: rest, k, w =>
      if k = k' then (k, w) :: rest else (k', w') :: putVal rest k w

/-- The chaincode stub: world state, the keys on which `PutState` fails,
and the store transaction identifier returned by `GetTxID`. -/
structure Stub where
  state : LedgerState
  failKeys : List String
  txid : String
deriving Repr, DecidableEq

/-- Outcome of an invocation: the `peer.Response`, the resulting world state,
and the trace of committed writes in commit order (key, wallet, txid). -/
structure TxOut (α : Type) where
  resp : Resp α
  state : LedgerState
  writes : List (String × Wallet × String)
deriving Repr, DecidableEq

/-- Digits of a decimal string folded to a `Nat` (Go's ParseUint accumulator). -/
def parseDigits (l : List Char) : Nat :=
  l.foldl (fun a c => a * 10 + (c.toNat - 48)) 0

/-- `strconv.ParseUint(s, 10, 32)` with the error reduced to a Bool:
`(v, true)` on success; `(0, false)` on a syntax error (empty or non-digit
string); `(2^32 - 1, false)` on range overflow, as Go returns the maximum
magnitude value together with `ErrRange`. -/
def parseUint32 (s : String) : Nat × Bool :=
  if s.data ≠ [] ∧ s.data.all (fun c => c.isDigit) then
    let n := parseDigits s.data
    if n < 2 ^ 32 then (n, true) else (2 ^ 32 - 1, false)
  else (0, false)

/-- `strconv.Atoi` with its error discarded, as the Go code does: an optional
sign followed by digits parses to the signed value clamped to int64 on range
overflow; anything else yields 0. -/
def atoi (s : String) : Int :=
  let p : Bool × List Char :=
    match s.data with
    | '-' :: rest => (true, rest)
    | '+' :: rest => (false, rest)
    | l => (false, l)
  if p.2 ≠ [] ∧ p.2.all (fun c => c.isDigit) then
    let n := parseDigits p.2
    if p.1 then
      if n ≤ 2 ^ 63 then -(n : Int) else -(2 ^ 63 : Int)
    else
      if n < 2 ^ 63 then (n : Int) else (2 ^ 63 - 1 : Int)
  else 0

/-- Wrap an integer into the int64 range, as Go's `toType += 1` does. -/
def int64wrap (i : Int) : Int :=
  (i + 2 ^ 63) % 2 ^ 64 - 2 ^ 63

/-- `strconv.Itoa`. -/
def itoa (i : Int) : String :=
  toString i

/-- Embedding of Go `init_wallet`: write a zero wallet under the given key. -/
def init_wallet (stub : Stub) (args : List String) : TxOut Wallet :=
  match args with
  | [a0] =>
      if a0 ∈ stub.failKeys then
        { resp := .error ("Failed to create Wallet: " ++ a0)
          state := stub.state, writes := [] }
      else
        { resp := .success Wallet.empty
          state := putVal stub.state a0 Wallet.empty
          writes := [(a0, Wallet.empty, stub.txid)] }
  | _ =>
      { resp := .error ("Incorrect number of arguments. Expecting 1")
        state := stub.state, writes := [] }

/-- Embedding of Go `publish`: read the wallet under `args[0]`; fail when it
is absent; otherwise add the parsed amount (parse error silently discarded,
as in the source) to the balance, record the movement
`{FromOrTo := args[1], Value, Date := args[3], TxType := "0"}`, and write the
updated wallet back.  The not-found message is the source's literal
`"Not Found wallet : %s"` (its format argument is missing in the Go code). -/
def publish (stub : Stub) (args : List String) : TxOut Wallet :=
  match args with
  | [a0, a1, a2, a3] =>
      match getVal stub.state a0 with
      | none =>
          { resp := .error ("Not Found wallet : %s")
            state := stub.state, writes := [] }
      | some w =>
          let value := (parseUint32 a2).1
          let w' : Wallet :=
            { value := (w.value + value) % 2 ^ 64
              transfer := { fromOrTo := a1, value := value, date := a3, txType := "0" } }
          if a0 ∈ stub.failKeys then
            { resp := .error ("Failed to publish"), state := stub.state, writes := [] }
          else
            { resp := .success w'
              state := putVal stub.state a0 w'
              writes := [(a0, w', stub.txid)] }
  | _ =>
      { resp := .error ("Incorrect number of arguments. Expecting 4")
        state := stub.state, writes := [] }

/-- Embedding of Go `transfer`: read both wallets, parse the amount and the
type code (errors discarded), fail when either wallet is absent or the source
balance is below the amount; otherwise debit the source recording
`TxType := args[3]`, credit the destination recording
`TxType := itoa (atoi args[3] + 1)`, write the source first (aborting if that
write fails), read `GetTxID`, write the destination, and return the txid. -/
def transfer (stub : Stub) (args : List String) : TxOut String :=
  match args with
  | [a0, a1, a2, a3, a4] =>
      let fromBytes := getVal stub.state a0
      let toBytes := getVal stub.state a1
      let value := (parseUint32 a2).1
      let fromType := itoa (int64wrap (atoi a3 + 1))
      match fromBytes, toBytes with
      | some fromW, some toW =>
          if fromW.value < value then
            { resp := .error (a0 ++ " is not enough balance.")
              state := stub.state, writes := [] }
          else
            let fromW' : Wallet :=
              { value := fromW.value - value
                transfer := { fromOrTo := a1, value := value, date := a4, txType := a3 } }
            let toW' : Wallet :=
              { value := (toW.value + value) % 2 ^ 64
                transfer := { fromOrTo := a0, value := value, date := a4, txType := fromType } }
            if a0 ∈ stub.failKeys then
              { resp := .error ("Failed to transfer"), state := stub.state, writes := [] }
            else
              let st1 := putVal stub.state a0 fromW'
              if a1 ∈ stub.failKeys then
                { resp := .error ("Failed to transfer")
                  state := st1, writes := [(a0, fromW', stub.txid)] }
              else
                { resp := .success stub.txid
                  state := putVal st1 a1 toW'
                  writes := [(a0, fromW', stub.txid), (a1, toW', stub.txid)] }
      | _, _ =>
          { resp := .error ("Not found wallet"), state := stub.state, writes := [] }
  | _ =>
      { resp := .error ("Incorrect number of arguments. Expecting 5")
        state := stub.state, writes := [] }

/-- A historical value for a key, as handed out by `GetHistoryForKey`:
`none` models a nil/tombstoned value, `some none` a present value that
`json.Unmarshal` cannot decode (leaving its target unchanged), and
`some (some w)` a value decoding to `w`. -/
structure HistEntryIn where
  txId : String
  value : Option (Option Wallet)
deriving Repr, DecidableEq

/-- Mirrors the Go result struct `get_History` (fields TxId, Value). -/
structure get_History where
  txId : String
  value : Wallet
deriving Repr, DecidableEq

/-- The iteration loop of Go `get_txList`, with the loop-carried shared
variable `wallet` made explicit: a decodable value overwrites it, a nil or
undecodable value leaves it unchanged; a nil value renders as the zero
wallet, every other value renders as the current contents of `wallet`. -/
def get_txList_loop : List HistEntryIn → Wallet → List get_History
  | [], _ => []
  | e :: rest, w =>
      let w' : Wallet :=
        match e.value with
        | some (some v) => v
        | _ => w
      let out : get_History :=
        { txId := e.txId
          value := match e.value with
                   | none => Wallet.empty
                   | _ => w' }
      out :: get_txList_loop rest w'

/-- Embedding of Go `get_txList`: `histRes` is the outcome of
`GetHistoryForKey` on `args[0]` (an error when the history cannot be opened,
else the ordered list of historical values, oldest to newest). -/
def get_txList (histRes : Except String (List HistEntryIn)) (args : List String) :
    Resp (List get_History) :=
  match args with
  | [_a0] =>
      match histRes with
      | .error e => .error e
      | .ok es => .success (get_txList_loop es Wallet.empty)
  | _ => .error ("Incorrect number of arguments. Expecting 1")

/-- The most recently decoded wallet among the first `i` history entries,
starting from the zero wallet: what the shared `wallet` variable of
`get_txList` holds when entry `i` is processed. -/
def decodedUpTo (es : List HistEntryIn) (i : Nat) : Wallet :=
  (es.take i).foldl
    (fun w e =>
      match e.value with
      | some (some v) => v
      | _ => w)
    Wallet.empty

/-- A wallet holding `n` with a zero movement record, used as concrete test
state in the witnesses below. -/
def plainWallet (n : Nat) : Wallet :=
  { value := n, transfer := { fromOrTo := "", value := 0, date := "", txType := "" } }

-- Sanity checks on the embedding (spec §8.6 scenario).
example :
    (transfer
      { state := [("1", { value := 10000
                          transfer := { fromOrTo := "admin", value := 10000
                                        date := "20181212", txType := "0" } }),
                  ("2", Wallet.empty)]
        failKeys := [], txid := "tx7" }
      ["1", "2", "1000", "3", "20181212"]).resp = .success ("tx7") := by decide

example :
    getVal
      (transfer
        { state := [("1", { value := 10000
                            transfer := { fromOrTo := "admin", value := 10000
                                          date := "20181212", txType := "0" } }),
                    ("2", Wallet.empty)]
          failKeys := [], txid := "tx7" }
        ["1", "2", "1000", "3", "20181212"]).state "1"
    = some { value := 9000
             transfer := { fromOrTo := "2", value := 1000
                           date := "20181212", txType := "3" } } := by decide

example :
    getVal
      (transfer
        { state := [("1", { value := 10000
                            transfer := { fromOrTo := "admin", value := 10000
                                          date := "20181212", txType := "0" } }),
                    ("2", Wallet.empty)]
          failKeys := [], txid := "tx7" }
        ["1", "2", "1000", "3", "20181212"]).state "2"
    = some { value := 1000
             transfer := { fromOrTo := "1", value := 1000
                           date := "20181212", txType := "4" } } := by decide

/-! ### Store lemmas -/

theorem getVal_putVal_same (st : LedgerState) (k : String) (w : Wallet) :
    getVal (putVal st k w) k = some w := by
  induction st with
  | nil => simp [putVal, getVal]
  | cons p rest ih =>
      by_cases h : k = p.1
      · simp [putVal, getVal, h]
      · simp [putVal, getVal, h, ih]

theorem getVal_putVal_ne (st : LedgerState) (k k' : String) (w : Wallet)
    (h : k' ≠ k) :
    getVal (putVal st k w) k' = getVal st k' := by
  induction st with
  | nil => simp [putVal, getVal, h]
  | cons p rest ih =>
      by_cases hk : k = p.1
      · subst hk
        simp [putVal, getVal, h]
      · by_cases hk' : k' = p.1
        · simp [putVal, getVal, hk, hk']
        · simp [putVal, getVal, hk, hk', ih]

/-! ### C1: conservation of the balance sum on a successful transfer -/

/-- C1: for every transfer that succeeds (both wallets present, source
balance at least the amount, both writes committed), provided crediting the
destination does not overflow uint64 (the caller obligation of spec §3), the
sum of the source and destination balances is unchanged: the amount debited
equals the amount credited, with no fee or loss. -/
theorem transfer_conserves_sum
    (stub : Stub) (a0 a1 a2 a3 a4 : String) (fromW toW : Wallet)
    (hne : a0 ≠ a1)
    (hf : getVal stub.state a0 = some fromW)
    (ht : getVal stub.state a1 = some toW)
    (hbal : (parseUint32 a2).1 ≤ fromW.value)
    (hnoov : toW.value + (parseUint32 a2).1 < 2 ^ 64)
    (hok0 : a0 ∉ stub.failKeys) (hok1 : a1 ∉ stub.failKeys) :
    ∃ fromW' toW',
      getVal (transfer stub [a0, a1, a2, a3, a4]).state a0 = some fromW' ∧
      getVal (transfer stub [a0, a1, a2, a3, a4]).state a1 = some toW' ∧
      fromW'.value + toW'.value = fromW.value + toW.value := by
  have hlt : ¬ fromW.value < (parseUint32 a2).1 := Nat.not_lt.mpr hbal
  simp only [transfer, hf, ht, if_neg hlt, if_neg hok0, if_neg hok1]
  refine ⟨{ value := fromW.value - (parseUint32 a2).1
            transfer := { fromOrTo := a1, value := (parseUint32 a2).1
                          date := a4, txType := a3 } },
          { value := (toW.value + (parseUint32 a2).1) % 2 ^ 64
            transfer := { fromOrTo := a0, value := (parseUint32 a2).1
                          date := a4, txType := itoa (int64wrap (atoi a3 + 1)) } },
          ?_, ?_, ?_⟩
  · rw [getVal_putVal_ne _ _ _ _ hne, getVal_putVal_same]
  · rw [getVal_putVal_same]
  · simp only [Nat.mod_eq_of_lt hnoov]
    omega

/-- Witness for C1 at the spec §8.6 scenario: transferring 1000 from a
10000-balance wallet "1" to a zero wallet "2" conserves the sum. -/
theorem transfer_conserves_sum_witness :
    ∃ fromW' toW',
      getVal (transfer
        { state := [("1", { value := 10000
                            transfer := { fromOrTo := "admin", value := 10000
                                          date := "20181212", txType := "0" } }),
                    ("2", Wallet.empty)]
          failKeys := [], txid := "tx7" }
        ["1", "2", "1000", "3", "20181212"]).state "1" = some fromW' ∧
      getVal (transfer
        { state := [("1", { value := 10000
                            transfer := { fromOrTo := "admin", value := 10000
                                          date := "20181212", txType := "0" } }),
                    ("2", Wallet.empty)]
          failKeys := [], txid := "tx7" }
        ["1", "2", "1000", "3", "20181212"]).state "2" = some toW' ∧
      fromW'.value + toW'.value = 10000 + Wallet.empty.value :=
  transfer_conserves_sum
    { state := [("1", { value := 10000
                        transfer := { fromOrTo := "admin", value := 10000
                                      date := "20181212", txType := "0" } }),
                ("2", Wallet.empty)]
      failKeys := [], txid := "tx7" }
    "1" "2" "1000" "3" "20181212"
    { value := 10000
      transfer := { fromOrTo := "admin", value := 10000
                    date := "20181212", txType := "0" } }
    Wallet.empty
    (by decide) (by decide) (by decide) (by decide) (by decide)
    (by decide) (by decide)

/-! ### C3: the InsufficientBalance failure -/

theorem balance_msg_ne_failed (a0 : String) :
    a0 ++ " is not enough balance." ≠ "Failed to transfer" := by
  intro h
  have h2 := congrArg String.length h
  rw [String.length_append] at h2
  have h3 : (" is not enough balance." : String).length = 23 := by decide
  have h4 : ("Failed to transfer" : String).length = 18 := by decide
  omega

theorem transfer_run_insufficient
    (stub : Stub) (a0 a1 a2 a3 a4 : String) (fromW toW : Wallet)
    (hf : getVal stub.state a0 = some fromW)
    (ht : getVal stub.state a1 = some toW)
    (hlt : fromW.value < (parseUint32 a2).1) :
    transfer stub [a0, a1, a2, a3, a4]
      = { resp := .error (a0 ++ " is not enough balance.")
          state := stub.state, writes := [] } := by
  simp only [transfer, hf, ht, if_pos hlt]

theorem transfer_run_srcfail
    (stub : Stub) (a0 a1 a2 a3 a4 : String) (fromW toW : Wallet)
    (hf : getVal stub.state a0 = some fromW)
    (ht : getVal stub.state a1 = some toW)
    (hlt : ¬ fromW.value < (parseUint32 a2).1)
    (h0 : a0 ∈ stub.failKeys) :
    transfer stub [a0, a1, a2, a3, a4]
      = { resp := .error ("Failed to transfer")
          state := stub.state, writes := [] } := by
  simp only [transfer, hf, ht, if_neg hlt, if_pos h0]

theorem transfer_run_ok
    (stub : Stub) (a0 a1 a2 a3 a4 : String) (fromW toW : Wallet)
    (hf : getVal stub.state a0 = some fromW)
    (ht : getVal stub.state a1 = some toW)
    (hlt : ¬ fromW.value < (parseUint32 a2).1)
    (h0 : a0 ∉ stub.failKeys) (h1 : a1 ∉ stub.failKeys) :
    transfer stub [a0, a1, a2, a3, a4]
      = { resp := .success stub.txid
          state := putVal (putVal stub.state a0
              { value := fromW.value - (parseUint32 a2).1
                transfer := { fromOrTo := a1, value := (parseUint32 a2).1
                              date := a4, txType := a3 } }) a1
              { value := (toW.value + (parseUint32 a2).1) % 2 ^ 64
                transfer := { fromOrTo := a0, value := (parseUint32 a2).1
                              date := a4
                              txType := itoa (int64wrap (atoi a3 + 1)) } }
          writes := [(a0, { value := fromW.value - (parseUint32 a2).1
                            transfer := { fromOrTo := a1, value := (parseUint32 a2).1
                                          date := a4, txType := a3 } }, stub.txid),
                     (a1, { value := (toW.value + (parseUint32 a2).1) % 2 ^ 64
                            transfer := { fromOrTo := a0, value := (parseUint32 a2).1
                                          date := a4
                                          txType := itoa (int64wrap (atoi a3 + 1)) } },
                      stub.txid)] } := by
  simp only [transfer, hf, ht, if_neg hlt, if_neg h0, if_neg h1]

/-- C3: given that both wallets are present, the transfer fails with the
insufficient-balance error exactly when the source balance is strictly below
the parsed amount, and on that failure path the state is unchanged and no
write is committed. -/
theorem transfer_insufficient_iff
    (stub : Stub) (a0 a1 a2 a3 a4 : String) (fromW toW : Wallet)
    (hf : getVal stub.state a0 = some fromW)
    (ht : getVal stub.state a1 = some toW) :
    ((transfer stub [a0, a1, a2, a3, a4]).resp
        = .error (a0 ++ " is not enough balance.")
      ↔ fromW.value < (parseUint32 a2).1)
    ∧ (fromW.value < (parseUint32 a2).1 →
        (transfer stub [a0, a1, a2, a3, a4]).state = stub.state ∧
        (transfer stub [a0, a1, a2, a3, a4]).writes = []) := by
  by_cases hlt : fromW.value < (parseUint32 a2).1
  · rw [transfer_run_insufficient stub a0 a1 a2 a3 a4 fromW toW hf ht hlt]
    exact ⟨⟨fun _ => hlt, fun _ => rfl⟩, fun _ => ⟨rfl, rfl⟩⟩
  · refine ⟨⟨fun h => ?_, fun hv => absurd hv hlt⟩, fun hv => absurd hv hlt⟩
    by_cases h0 : a0 ∈ stub.failKeys
    · rw [transfer_run_srcfail stub a0 a1 a2 a3 a4 fromW toW hf ht hlt h0] at h
      injection h with h'
      exact ((balance_msg_ne_failed a0) h'.symm).elim
    · by_cases h1 : a1 ∈ stub.failKeys
      · rw [show transfer stub [a0, a1, a2, a3, a4]
              = { resp := .error ("Failed to transfer")
                  state := putVal stub.state a0
                    { value := fromW.value - (parseUint32 a2).1
                      transfer := { fromOrTo := a1, value := (parseUint32 a2).1
                                    date := a4, txType := a3 } }
                  writes := [(a0, { value := fromW.value - (parseUint32 a2).1
                                    transfer := { fromOrTo := a1
                                                  value := (parseUint32 a2).1
                                                  date := a4, txType := a3 } },
                              stub.txid)] }
            from by simp only [transfer, hf, ht, if_neg hlt, if_neg h0, if_pos h1]]
          at h
        injection h with h'
        exact ((balance_msg_ne_failed a0) h'.symm).elim
      · rw [transfer_run_ok stub a0 a1 a2 a3 a4 fromW toW hf ht hlt h0 h1] at h
        exact Resp.noConfusion h

/-- Witness for C3: a source wallet holding 10 cannot send 1000; the failure
is the insufficient-balance error, and the state is untouched. -/
theorem transfer_insufficient_iff_witness :
    ((transfer
        { state := [("1", plainWallet 10), ("2", Wallet.empty)]
          failKeys := [], txid := "t1" }
        ["1", "2", "1000", "3", "20181212"]).resp
        = .error ("1" ++ " is not enough balance.")
      ↔ (plainWallet 10).value < (parseUint32 "1000").1)
    ∧ ((plainWallet 10).value < (parseUint32 "1000").1 →
        (transfer
          { state := [("1", plainWallet 10), ("2", Wallet.empty)]
            failKeys := [], txid := "t1" }
          ["1", "2", "1000", "3", "20181212"]).state
          = [("1", plainWallet 10), ("2", Wallet.empty)] ∧
        (transfer
          { state := [("1", plainWallet 10), ("2", Wallet.empty)]
            failKeys := [], txid := "t1" }
          ["1", "2", "1000", "3", "20181212"]).writes = []) :=
  transfer_insufficient_iff
    { state := [("1", plainWallet 10), ("2", Wallet.empty)]
      failKeys := [], txid := "t1" }
    "1" "2" "1000" "3" "20181212" (plainWallet 10) Wallet.empty
    (by decide) (by decide)

/-! ### C4: write ordering and the partial-failure policy -/

/-- C4: on a transfer whose preconditions hold, if the source write is
rejected the operation aborts with the write-failure error, leaving the state
unchanged and committing nothing (the destination write is never reached);
when both writes commit, the committed trace is exactly the source write
followed by the destination write, and the response returns the store
transaction identifier carried by the source write's commit. -/
theorem transfer_write_protocol
    (stub : Stub) (a0 a1 a2 a3 a4 : String) (fromW toW : Wallet)
    (hf : getVal stub.state a0 = some fromW)
    (ht : getVal stub.state a1 = some toW)
    (hbal : (parseUint32 a2).1 ≤ fromW.value) :
    (a0 ∈ stub.failKeys →
      (transfer stub [a0, a1, a2, a3, a4]).resp = .error ("Failed to transfer") ∧
      (transfer stub [a0, a1, a2, a3, a4]).state = stub.state ∧
      (transfer stub [a0, a1, a2, a3, a4]).writes = [])
    ∧ (a0 ∉ stub.failKeys → a1 ∉ stub.failKeys →
      ∃ fromW' toW',
        (transfer stub [a0, a1, a2, a3, a4]).writes
          = [(a0, fromW', stub.txid), (a1, toW', stub.txid)] ∧
        (transfer stub [a0, a1, a2, a3, a4]).resp = .success stub.txid) := by
  have hlt : ¬ fromW.value < (parseUint32 a2).1 := Nat.not_lt.mpr hbal
  constructor
  · intro h0
    rw [transfer_run_srcfail stub a0 a1 a2 a3 a4 fromW toW hf ht hlt h0]
    exact ⟨rfl, rfl, rfl⟩
  · intro h0 h1
    rw [transfer_run_ok stub a0 a1 a2 a3 a4 fromW toW hf ht hlt h0 h1]
    exact ⟨_, _, rfl, rfl⟩

/-- Witness for C4 on a stub that rejects the write to the source key "1"
(first conjunct) and, vacuously there, the committed-trace shape. -/
theorem transfer_write_protocol_witness :
    ("1" ∈ (["1"] : List String) →
      (transfer
        { state := [("1", plainWallet 10000), ("2", Wallet.empty)]
          failKeys := ["1"], txid := "t2" }
        ["1", "2", "1000", "3", "20181212"]).resp = .error ("Failed to transfer") ∧
      (transfer
        { state := [("1", plainWallet 10000), ("2", Wallet.empty)]
          failKeys := ["1"], txid := "t2" }
        ["1", "2", "1000", "3", "20181212"]).state
        = [("1", plainWallet 10000), ("2", Wallet.empty)] ∧
      (transfer
        { state := [("1", plainWallet 10000), ("2", Wallet.empty)]
          failKeys := ["1"], txid := "t2" }
        ["1", "2", "1000", "3", "20181212"]).writes = [])
    ∧ ("1" ∉ (["1"] : List String) → "2" ∉ (["1"] : List String) →
      ∃ fromW' toW',
        (transfer
          { state := [("1", plainWallet 10000), ("2", Wallet.empty)]
            failKeys := ["1"], txid := "t2" }
          ["1", "2", "1000", "3", "20181212"]).writes
          = [("1", fromW', "t2"), ("2", toW', "t2")] ∧
        (transfer
          { state := [("1", plainWallet 10000), ("2", Wallet.empty)]
            failKeys := ["1"], txid := "t2" }
          ["1", "2", "1000", "3", "20181212"]).resp = .success ("t2")) :=
  transfer_write_protocol
    { state := [("1", plainWallet 10000), ("2", Wallet.empty)]
      failKeys := ["1"], txid := "t2" }
    "1" "2" "1000" "3" "20181212" (plainWallet 10000) Wallet.empty
    (by decide) (by decide) (by decide)

/-! ### C5: a self-transfer loses conservation by overwriting the debit -/

/-- C5: when the source and destination identifiers coincide and the wallet's
balance covers the amount (the credit not overflowing uint64), the transfer
succeeds and the finally persisted balance is the initial balance plus the
amount: the destination write overwrites the source's debit, so total value
is not conserved on a self-transfer. -/
theorem transfer_self_overwrites
    (stub : Stub) (k a2 a3 a4 : String) (w : Wallet)
    (hk : getVal stub.state k = some w)
    (hbal : (parseUint32 a2).1 ≤ w.value)
    (hnoov : w.value + (parseUint32 a2).1 < 2 ^ 64)
    (hok : k ∉ stub.failKeys) :
    (transfer stub [k, k, a2, a3, a4]).resp = .success stub.txid ∧
    ∃ w', getVal (transfer stub [k, k, a2, a3, a4]).state k = some w' ∧
      w'.value = w.value + (parseUint32 a2).1 := by
  have hlt : ¬ w.value < (parseUint32 a2).1 := Nat.not_lt.mpr hbal
  rw [transfer_run_ok stub k k a2 a3 a4 w w hk hk hlt hok hok]
  exact ⟨rfl, _, getVal_putVal_same _ _ _, Nat.mod_eq_of_lt hnoov⟩

/-- Witness for C5: a self-transfer of 1000 on a wallet holding 10000 leaves
it with 11000 — value is created. -/
theorem transfer_self_overwrites_witness :
    (transfer
      { state := [("1", plainWallet 10000)], failKeys := [], txid := "t3" }
      ["1", "1", "1000", "3", "20181212"]).resp = .success ("t3") ∧
    ∃ w', getVal (transfer
      { state := [("1", plainWallet 10000)], failKeys := [], txid := "t3" }
      ["1", "1", "1000", "3", "20181212"]).state "1" = some w' ∧
      w'.value = (plainWallet 10000).value + (parseUint32 "1000").1 :=
  transfer_self_overwrites
    { state := [("1", plainWallet 10000)], failKeys := [], txid := "t3" }
    "1" "1000" "3" "20181212" (plainWallet 10000)
    (by decide) (by decide) (by decide) (by decide)

/-! ### C2: the movement codes recorded by a transfer -/

/-- C2 counterexample: on the spec's own scenario
`transfer ("1","2",1000,3,...)` the claim predicts movement code "3" on the
destination wallet "2" and "4" on the source wallet "1"; the code records
the opposite — "3" on the source and "4" on the destination. -/
theorem transfer_codes_claim_counterexample :
    ¬ (((getVal (transfer
          { state := [("1", plainWallet 10000), ("2", Wallet.empty)]
            failKeys := [], txid := "tx7" }
          ["1", "2", "1000", "3", "20181212"]).state "2").map
            (fun w => w.transfer.txType) = some ("3")) ∧
       ((getVal (transfer
          { state := [("1", plainWallet 10000), ("2", Wallet.empty)]
            failKeys := [], txid := "tx7" }
          ["1", "2", "1000", "3", "20181212"]).state "1").map
            (fun w => w.transfer.txType) = some ("4"))) := by
  decide

/-- C2 amended: for a base movement code string denoting the integer `c`
(with `c + 1` inside the int64 range), a successful transfer records the
supplied code string unchanged on the SOURCE wallet and the rendering of
`c + 1` on the DESTINATION wallet — the reverse of the claimed assignment. -/
theorem transfer_codes_amended
    (stub : Stub) (a0 a1 a2 a3 a4 : String) (fromW toW : Wallet) (c : Int)
    (hne : a0 ≠ a1)
    (hf : getVal stub.state a0 = some fromW)
    (ht : getVal stub.state a1 = some toW)
    (hbal : (parseUint32 a2).1 ≤ fromW.value)
    (h0 : a0 ∉ stub.failKeys) (h1 : a1 ∉ stub.failKeys)
    (hc : atoi a3 = c)
    (hhi : c + 1 < 2 ^ 63) (hlo : -(2 ^ 63) ≤ c + 1) :
    ∃ fromW' toW',
      getVal (transfer stub [a0, a1, a2, a3, a4]).state a0 = some fromW' ∧
      getVal (transfer stub [a0, a1, a2, a3, a4]).state a1 = some toW' ∧
      fromW'.transfer.txType = a3 ∧
      toW'.transfer.txType = itoa (c + 1) := by
  have hlt : ¬ fromW.value < (parseUint32 a2).1 := Nat.not_lt.mpr hbal
  rw [transfer_run_ok stub a0 a1 a2 a3 a4 fromW toW hf ht hlt h0 h1]
  refine ⟨{ value := fromW.value - (parseUint32 a2).1
            transfer := { fromOrTo := a1, value := (parseUint32 a2).1
                          date := a4, txType := a3 } },
          { value := (toW.value + (parseUint32 a2).1) % 2 ^ 64
            transfer := { fromOrTo := a0, value := (parseUint32 a2).1
                          date := a4
                          txType := itoa (int64wrap (atoi a3 + 1)) } },
          ?_, ?_, rfl, ?_⟩
  · rw [getVal_putVal_ne _ _ _ _ hne, getVal_putVal_same]
  · rw [getVal_putVal_same]
  · show itoa (int64wrap (atoi a3 + 1)) = itoa (c + 1)
    rw [hc]
    have : int64wrap (c + 1) = c + 1 := by
      unfold int64wrap
      omega
    rw [this]

/-- Witness for the amended C2 at base code "3": the source wallet keeps
code "3" and the destination wallet gets the rendering of 4. -/
theorem transfer_codes_amended_witness :
    ∃ fromW' toW',
      getVal (transfer
        { state := [("1", plainWallet 10000), ("2", Wallet.empty)]
          failKeys := [], txid := "tx7" }
        ["1", "2", "1000", "3", "20181212"]).state "1" = some fromW' ∧
      getVal (transfer
        { state := [("1", plainWallet 10000), ("2", Wallet.empty)]
          failKeys := [], txid := "tx7" }
        ["1", "2", "1000", "3", "20181212"]).state "2" = some toW' ∧
      fromW'.transfer.txType = "3" ∧
      toW'.transfer.txType = itoa ((3 : Int) + 1) :=
  transfer_codes_amended
    { state := [("1", plainWallet 10000), ("2", Wallet.empty)]
      failKeys := [], txid := "tx7" }
    "1" "2" "1000" "3" "20181212" (plainWallet 10000) Wallet.empty 3
    (by decide) (by decide) (by decide) (by decide) (by decide) (by decide)
    (by decide) (by decide) (by decide)

/-! ### C6: publish silently coerces an unparsable amount to 0 -/

/-- C6 (code bug): `publish` discards the ParseUint error, so an unparsable
amount string such as "abc" is coerced to amount 0 and the operation
SUCCEEDS with the balance unchanged, instead of failing with an
invalid-argument error as the specification requires. -/
theorem publish_unparsable_amount_coerced :
    (parseUint32 "abc").2 = false ∧
    (publish { state := [("1", plainWallet 500)], failKeys := [], txid := "t4" }
      ["1", "admin", "abc", "20181212"]).resp
      = .success { value := 500
                   transfer := { fromOrTo := "admin", value := 0
                                 date := "20181212", txType := "0" } } := by
  decide

/-! ### C7 and C8: the publish effect and its not-found failure -/

theorem publish_run_ok
    (stub : Stub) (a0 a1 a2 a3 : String) (w : Wallet)
    (hw : getVal stub.state a0 = some w)
    (h0 : a0 ∉ stub.failKeys) :
    publish stub [a0, a1, a2, a3]
      = { resp := .success { value := (w.value + (parseUint32 a2).1) % 2 ^ 64
                             transfer := { fromOrTo := a1, value := (parseUint32 a2).1
                                           date := a3, txType := "0" } }
          state := putVal stub.state a0
              { value := (w.value + (parseUint32 a2).1) % 2 ^ 64
                transfer := { fromOrTo := a1, value := (parseUint32 a2).1
                              date := a3, txType := "0" } }
          writes := [(a0, { value := (w.value + (parseUint32 a2).1) % 2 ^ 64
                            transfer := { fromOrTo := a1, value := (parseUint32 a2).1
                                          date := a3, txType := "0" } },
                      stub.txid)] } := by
  simp only [publish, hw, if_neg h0]

/-- C7: publishing a parsable amount onto an existing wallet (the credit not
overflowing uint64) succeeds, increments the balance by exactly the amount,
and records the issuer as counterparty, the amount, the supplied date and
movement code "0" (PUBLISH), both in the returned payload and in the
persisted record. -/
theorem publish_updates_wallet
    (stub : Stub) (a0 a1 a2 a3 : String) (w : Wallet)
    (hw : getVal stub.state a0 = some w)
    (_hparse : (parseUint32 a2).2 = true)
    (hnoov : w.value + (parseUint32 a2).1 < 2 ^ 64)
    (h0 : a0 ∉ stub.failKeys) :
    (publish stub [a0, a1, a2, a3]).resp
      = .success { value := w.value + (parseUint32 a2).1
                   transfer := { fromOrTo := a1, value := (parseUint32 a2).1
                                 date := a3, txType := "0" } } ∧
    getVal (publish stub [a0, a1, a2, a3]).state a0
      = some { value := w.value + (parseUint32 a2).1
               transfer := { fromOrTo := a1, value := (parseUint32 a2).1
                             date := a3, txType := "0" } } := by
  rw [publish_run_ok stub a0 a1 a2 a3 w hw h0, Nat.mod_eq_of_lt hnoov]
  exact ⟨rfl, getVal_putVal_same _ _ _⟩

/-- Witness for C7 at the spec §8.6 scenario: publishing 10000 onto the zero
wallet "1" yields balance 10000 and movement code "0". -/
theorem publish_updates_wallet_witness :
    (publish { state := [("1", Wallet.empty)], failKeys := [], txid := "t6" }
      ["1", "admin", "10000", "20181212"]).resp
      = .success { value := Wallet.empty.value + (parseUint32 "10000").1
                   transfer := { fromOrTo := "admin", value := (parseUint32 "10000").1
                                 date := "20181212", txType := "0" } } ∧
    getVal (publish { state := [("1", Wallet.empty)], failKeys := [], txid := "t6" }
      ["1", "admin", "10000", "20181212"]).state "1"
      = some { value := Wallet.empty.value + (parseUint32 "10000").1
               transfer := { fromOrTo := "admin", value := (parseUint32 "10000").1
                             date := "20181212", txType := "0" } } :=
  publish_updates_wallet
    { state := [("1", Wallet.empty)], failKeys := [], txid := "t6" }
    "1" "admin" "10000" "20181212" Wallet.empty
    (by decide) (by decide) (by decide) (by decide)

/-- C8: publishing onto an identifier whose record is absent from the store
fails with the not-found error, leaves the state unchanged, and commits no
write. -/
theorem publish_not_found
    (stub : Stub) (a0 a1 a2 a3 : String)
    (h : getVal stub.state a0 = none) :
    (publish stub [a0, a1, a2, a3]).resp = .error ("Not Found wallet : %s") ∧
    (publish stub [a0, a1, a2, a3]).state = stub.state ∧
    (publish stub [a0, a1, a2, a3]).writes = [] := by
  have he : publish stub [a0, a1, a2, a3]
      = { resp := .error ("Not Found wallet : %s")
          state := stub.state, writes := [] } := by
    simp only [publish, h]
  rw [he]
  exact ⟨rfl, rfl, rfl⟩

/-- Witness for C8: publishing onto the absent identifier "9" fails without a
write. -/
theorem publish_not_found_witness :
    (publish { state := [("1", plainWallet 500)], failKeys := [], txid := "t7" }
      ["9", "admin", "10", "20181212"]).resp = .error ("Not Found wallet : %s") ∧
    (publish { state := [("1", plainWallet 500)], failKeys := [], txid := "t7" }
      ["9", "admin", "10", "20181212"]).state = [("1", plainWallet 500)] ∧
    (publish { state := [("1", plainWallet 500)], failKeys := [], txid := "t7" }
      ["9", "admin", "10", "20181212"]).writes = [] :=
  publish_not_found
    { state := [("1", plainWallet 500)], failKeys := [], txid := "t7" }
    "9" "admin" "10" "20181212" (by decide)

/-! ### C10: initialization overwrites unconditionally -/

/-- C10: `init_wallet` with exactly one identifier argument (and the store
accepting the write) always persists the zero wallet — balance 0 with an
empty movement record — under that identifier, for every prior state,
including states where the identifier already holds a nonzero balance. -/
theorem init_wallet_overwrites
    (stub : Stub) (k : String) (hok : k ∉ stub.failKeys) :
    (init_wallet stub [k]).resp = .success Wallet.empty ∧
    getVal (init_wallet stub [k]).state k = some Wallet.empty ∧
    Wallet.empty.value = 0 := by
  have he : init_wallet stub [k]
      = { resp := .success Wallet.empty
          state := putVal stub.state k Wallet.empty
          writes := [(k, Wallet.empty, stub.txid)] } := by
    simp only [init_wallet, if_neg hok]
  rw [he]
  exact ⟨rfl, getVal_putVal_same _ _ _, rfl⟩

/-- Witness for C10: re-initializing the existing identifier "1", which holds
777, silently resets it to the zero wallet. -/
theorem init_wallet_overwrites_witness :
    (init_wallet { state := [("1", plainWallet 777)], failKeys := [], txid := "t8" }
      ["1"]).resp = .success Wallet.empty ∧
    getVal (init_wallet { state := [("1", plainWallet 777)], failKeys := [], txid := "t8" }
      ["1"]).state "1" = some Wallet.empty ∧
    Wallet.empty.value = 0 :=
  init_wallet_overwrites
    { state := [("1", plainWallet 777)], failKeys := [], txid := "t8" }
    "1" (by decide)

/-! ### C9: rendering of the per-key history -/

theorem get_txList_loop_length (es : List HistEntryIn) (w : Wallet) :
    (get_txList_loop es w).length = es.length := by
  induction es generalizing w with
  | nil => rfl
  | cons e rest ih => simp [get_txList_loop, ih]

theorem get_txList_loop_get?
    (es : List HistEntryIn) (w : Wallet) (i : Nat) (e : HistEntryIn)
    (h : es[i]? = some e) :
    (get_txList_loop es w)[i]?
      = some { txId := e.txId
               value := match e.value with
                        | none => Wallet.empty
                        | some none =>
                            (es.take i).foldl
                              (fun acc e' =>
                                match e'.value with
                                | some (some v) => v
                                | _ => acc) w
                        | some (some v) => v } := by
  induction es generalizing w i with
  | nil => simp at h
  | cons e0 rest ih =>
      cases i with
      | zero =>
          simp only [List.getElem?_cons_zero, Option.some.injEq] at h
          subst h
          simp only [get_txList_loop, List.getElem?_cons_zero, List.take_zero,
            List.foldl_nil, Option.some.injEq]
          rcases hv : e0.value with _ | ov
          · simp [hv]
          · rcases ov with _ | v
            · simp [hv]
            · simp [hv]
      | succ n =>
          simp only [List.getElem?_cons_succ] at h
          simp only [get_txList_loop, List.getElem?_cons_succ,
            List.take_succ_cons, List.foldl_cons]
          exact ih _ n h

/-- C9 counterexample: a history whose first value decodes to a wallet
holding 5 and whose second value is present but undecodable.  The claim
predicts the second entry renders as the zero-value wallet; the code reuses
the shared `wallet` variable, so the second entry renders as the previously
decoded wallet holding 5. -/
theorem get_txList_claim_counterexample :
    get_txList (Except.ok
        [{ txId := "t1", value := some (some (plainWallet 5)) },
         { txId := "t2", value := some none }]) ["1"]
      = .success [{ txId := "t1", value := plainWallet 5 },
                  { txId := "t2", value := plainWallet 5 }] ∧
    ¬ get_txList (Except.ok
        [{ txId := "t1", value := some (some (plainWallet 5)) },
         { txId := "t2", value := some none }]) ["1"]
      = .success [{ txId := "t1", value := plainWallet 5 },
                  { txId := "t2", value := Wallet.empty }] := by
  decide

/-- C9 amended: when the history retrieval opens successfully the query never
aborts: it returns one entry per historical write, in order.  A
nil/tombstoned value renders as the zero-value wallet, a decodable value as
its decoding, but a present-yet-undecodable value renders as the most
recently decoded value among the earlier entries (the zero-value wallet only
when no earlier entry decoded), not unconditionally as the zero-value
wallet. -/
theorem get_txList_renders_history
    (es : List HistEntryIn) (k : String) (i : Nat) (e : HistEntryIn)
    (h : es[i]? = some e) :
    ∃ outs, get_txList (Except.ok es) [k] = .success outs ∧
      outs.length = es.length ∧
      outs[i]? = some { txId := e.txId
                        value := match e.value with
                                 | none => Wallet.empty
                                 | some none => decodedUpTo es i
                                 | some (some v) => v } := by
  refine ⟨get_txList_loop es Wallet.empty, rfl,
    get_txList_loop_length es Wallet.empty, ?_⟩
  rw [get_txList_loop_get? es Wallet.empty i e h]
  rfl

/-- Witness for the amended C9 at the two-entry history above, rendering its
undecodable second entry from the first entry's decoded wallet. -/
theorem get_txList_renders_history_witness :
    ∃ outs, get_txList (Except.ok
        [{ txId := "t1", value := some (some (plainWallet 5)) },
         { txId := "t2", value := some none }]) ["1"] = .success outs ∧
      outs.length
        = ([{ txId := "t1", value := some (some (plainWallet 5)) },
            { txId := "t2", value := some none }] : List HistEntryIn).length ∧
      outs[1]?
        = some { txId := "t2"
                 value := decodedUpTo
                   [{ txId := "t1", value := some (some (plainWallet 5)) },
                    { txId := "t2", value := some none }] 1 } :=
  get_txList_renders_history
    [{ txId := "t1", value := some (some (plainWallet 5)) },
     { txId := "t2", value := some none }]
    "1" 1 { txId := "t2", value := some none } (by decide)
